import Mathlib

/-!
Verification of the brands-reviews repository: a shallow embedding in Lean 4
of the review-statistics and brand-aggregation code of the React frontend
(frontend/src/services/api.ts, frontend/src/pages/BrandAnalysisPage.tsx,
BrandComparisonPage), plus spec-modelled definitions for the backend
ingestion pipeline (persistence upsert, pagination driver, API client mode
selection) whose Python sources are not part of the checked tree.

JavaScript numbers are modelled as rationals, nullable string fields as
Option String, and fallible or stateful code as explicit state passing.
-/

namespace BrandsReviews

/-- A review as served to the frontend (interface Review in
frontend/src/services/api.ts). The sentiment_label field is nullable until
the enrichment pass runs, so it is an Option String here. -/
structure Review where
  id : String
  product_id : String
  rate : ℚ
  title : String
  content : String
  date_created : String
  reviewer_id : String
  likes : Int
  dislikes : Int
  sentiment_score : ℚ
  sentiment_label : Option String
  api_review_id : String
  date_text : String
  source : String
deriving Repr, DecidableEq

/-- The record returned by apiService.getSentimentStats. -/
structure SentimentStats where
  total : Nat
  positive : Nat
  negative : Nat
  neutral : Nat
  avgSentiment : ℚ
  avgRating : ℚ
  positivePercentage : ℚ
  negativePercentage : ℚ
  neutralPercentage : ℚ
deriving Repr, DecidableEq

/-- apiService.getSentimentStats (frontend/src/services/api.ts, lines
273-298), translated clause by clause: counts by filter + length, averages
by reduce over the list guarded by total > 0, percentages guarded the same
way. -/
def getSentimentStats (reviews : List Review) : SentimentStats :=
  let total := reviews.length
  let positive := (reviews.filter (fun r => decide (r.sentiment_label = some "positive"))).length
  let negative := (reviews.filter (fun r => decide (r.sentiment_label = some "negative"))).length
  let neutral := (reviews.filter (fun r => decide (r.sentiment_label = some "neutral"))).length
  let avgSentiment : ℚ :=
    if total > 0 then (reviews.foldl (fun sum r => sum + r.sentiment_score) 0) / total else 0
  let avgRating : ℚ :=
    if total > 0 then (reviews.foldl (fun sum r => sum + r.rate) 0) / total else 0
  { total := total
    positive := positive
    negative := negative
    neutral := neutral
    avgSentiment := avgSentiment
    avgRating := avgRating
    positivePercentage := if total > 0 then ((positive : ℚ) / total) * 100 else 0
    negativePercentage := if total > 0 then ((negative : ℚ) / total) * 100 else 0
    neutralPercentage := if total > 0 then ((neutral : ℚ) / total) * 100 else 0 }

/-- A concrete review used to instantiate universally quantified theorems. -/
def sampleReview : Review :=
  { id := "r1"
    product_id := "MLA1"
    rate := 4
    title := "ok"
    content := "muy bueno"
    date_created := "2024-01-01"
    reviewer_id := "u1"
    likes := 1
    dislikes := 0
    sentiment_score := 1/2
    sentiment_label := some "positive"
    api_review_id := "a1"
    date_text := "1 ene 2024"
    source := "noindex" }

/-- A second concrete review, negative sentiment. -/
def sampleReviewNeg : Review :=
  { sampleReview with
    id := "r2"
    rate := 1
    sentiment_score := -1/2
    sentiment_label := some "negative"
    api_review_id := "a2" }

/-- A concrete review whose sentiment_label is still null. -/
def sampleReviewNull : Review :=
  { sampleReview with
    id := "r3"
    rate := 3
    sentiment_score := 0
    sentiment_label := none
    api_review_id := "a3" }

lemma foldl_add_eq_sum (f : Review → ℚ) (a : ℚ) (l : List Review) :
    l.foldl (fun sum r => sum + f r) a = a + (l.map f).sum := by
  induction l generalizing a with
  | nil => simp
  | cons x xs ih => simp [List.foldl_cons, ih, add_assoc]

/-- C1: getSentimentStats returns total = length, the three counts are the
numbers of reviews labelled exactly positive, negative and neutral, and on a
non-empty list the averages are the arithmetic means of rate and
sentiment_score and each percentage is count / total * 100. -/
theorem getSentimentStats_spec (reviews : List Review) :
    (getSentimentStats reviews).total = reviews.length ∧
    (getSentimentStats reviews).positive
      = reviews.countP (fun r => decide (r.sentiment_label = some "positive")) ∧
    (getSentimentStats reviews).negative
      = reviews.countP (fun r => decide (r.sentiment_label = some "negative")) ∧
    (getSentimentStats reviews).neutral
      = reviews.countP (fun r => decide (r.sentiment_label = some "neutral")) ∧
    (reviews ≠ [] →
      (getSentimentStats reviews).avgRating
        = (reviews.map (fun r => r.rate)).sum / reviews.length ∧
      (getSentimentStats reviews).avgSentiment
        = (reviews.map (fun r => r.sentiment_score)).sum / reviews.length ∧
      (getSentimentStats reviews).positivePercentage
        = ((getSentimentStats reviews).positive : ℚ) / ((getSentimentStats reviews).total : ℚ) * 100 ∧
      (getSentimentStats reviews).negativePercentage
        = ((getSentimentStats reviews).negative : ℚ) / ((getSentimentStats reviews).total : ℚ) * 100 ∧
      (getSentimentStats reviews).neutralPercentage
        = ((getSentimentStats reviews).neutral : ℚ) / ((getSentimentStats reviews).total : ℚ) * 100) := by
  have hlen : reviews ≠ [] → 0 < reviews.length := fun h => List.length_pos.mpr h
  refine ⟨rfl, ?_, ?_, ?_, ?_⟩
  · simp [getSentimentStats, List.countP_eq_length_filter]
  · simp [getSentimentStats, List.countP_eq_length_filter]
  · simp [getSentimentStats, List.countP_eq_length_filter]
  · intro h
    have hpos : 0 < reviews.length := hlen h
    refine ⟨?_, ?_, ?_, ?_, ?_⟩ <;>
      simp [getSentimentStats, hpos, foldl_add_eq_sum]

/-- Witness for C1 at a concrete two-review list. -/
theorem getSentimentStats_spec_witness :
    (getSentimentStats [sampleReview, sampleReviewNeg]).avgRating
        = (([sampleReview, sampleReviewNeg]).map (fun r => r.rate)).sum / 2 ∧
    (getSentimentStats [sampleReview, sampleReviewNeg]).positivePercentage
        = ((getSentimentStats [sampleReview, sampleReviewNeg]).positive : ℚ)
            / ((getSentimentStats [sampleReview, sampleReviewNeg]).total : ℚ) * 100 := by
  have h := getSentimentStats_spec [sampleReview, sampleReviewNeg]
  have h2 := h.2.2.2.2 (by decide)
  exact ⟨h2.1, h2.2.2.1⟩

/-- C2: on the empty list getSentimentStats returns the all-zero record;
every division in the function sits under the total > 0 guard, which is
false here, so the else branch returns 0 everywhere. -/
theorem getSentimentStats_empty :
    getSentimentStats [] =
      { total := 0, positive := 0, negative := 0, neutral := 0,
        avgSentiment := 0, avgRating := 0,
        positivePercentage := 0, negativePercentage := 0,
        neutralPercentage := 0 } := by
  rfl

/-- JS Array.prototype.length read, with the receiver array threaded as
explicit state: reading length does not modify the array. -/
def jsLength (store : List Review) : Nat × List Review :=
  (store.length, store)

/-- JS Array.prototype.filter, state threaded: it builds a new array and
leaves the receiver unchanged. -/
def jsFilter (p : Review → Bool) (store : List Review) : List Review × List Review :=
  (store.filter p, store)

/-- JS Array.prototype.reduce with a sum accumulator, state threaded: it
folds over the receiver without modifying it. -/
def jsReduceAdd (f : Review → ℚ) (init : ℚ) (store : List Review) : ℚ × List Review :=
  (store.foldl (fun sum r => sum + f r) init, store)

/-- getSentimentStats with the review array as explicit state, each array
method of the source invoked in source order; the second component is the
array after the call. -/
def getSentimentStatsCall (store : List Review) : SentimentStats × List Review :=
  let (total, st1) := jsLength store
  let (posArr, st2) := jsFilter (fun r => decide (r.sentiment_label = some "positive")) st1
  let (negArr, st3) := jsFilter (fun r => decide (r.sentiment_label = some "negative")) st2
  let (neuArr, st4) := jsFilter (fun r => decide (r.sentiment_label = some "neutral")) st3
  let (avgSentiment, st5) :=
    if total > 0 then
      let (s, st) := jsReduceAdd (fun r => r.sentiment_score) 0 st4
      ((s / total : ℚ), st)
    else ((0 : ℚ), st4)
  let (avgRating, st6) :=
    if total > 0 then
      let (s, st) := jsReduceAdd (fun r => r.rate) 0 st5
      ((s / total : ℚ), st)
    else ((0 : ℚ), st5)
  ({ total := total
     positive := posArr.length
     negative := negArr.length
     neutral := neuArr.length
     avgSentiment := avgSentiment
     avgRating := avgRating
     positivePercentage := if total > 0 then ((posArr.length : ℚ) / total) * 100 else 0
     negativePercentage := if total > 0 then ((negArr.length : ℚ) / total) * 100 else 0
     neutralPercentage := if total > 0 then ((neuArr.length : ℚ) / total) * 100 else 0 },
   st6)

/-- C8: getSentimentStats is read-only. The state-threaded call returns the
review array unchanged, agrees with the pure function, and equal inputs give
equal results. -/
theorem getSentimentStats_readonly (store : List Review) :
    (getSentimentStatsCall store).2 = store ∧
    (getSentimentStatsCall store).1 = getSentimentStats store ∧
    (∀ other : List Review, store = other →
      getSentimentStatsCall store = getSentimentStatsCall other) := by
  refine ⟨?_, ?_, fun other h => by rw [h]⟩
  · unfold getSentimentStatsCall jsLength jsFilter jsReduceAdd
    by_cases h : store.length > 0 <;> simp [h]
  · unfold getSentimentStatsCall getSentimentStats jsLength jsFilter jsReduceAdd
    by_cases h : store.length > 0 <;> simp [h]

/-- Witness for C8 at a concrete list. -/
theorem getSentimentStats_readonly_witness :
    (getSentimentStatsCall [sampleReview, sampleReviewNull]).2
        = [sampleReview, sampleReviewNull] ∧
    getSentimentStatsCall [sampleReview, sampleReviewNull]
        = getSentimentStatsCall [sampleReview, sampleReviewNull] := by
  have h := getSentimentStats_readonly [sampleReview, sampleReviewNull]
  exact ⟨h.1, h.2.2 [sampleReview, sampleReviewNull] rfl⟩

/-- A product as served to the frontend (interface Product in
frontend/src/services/api.ts). -/
structure Product where
  id : String
  title : String
  price : ℚ
  site_id : String
  currency_id : String
  sold_quantity : Int
  available_quantity : Int
  marca : String
  modelo : String
deriving Repr, DecidableEq

/-- The fixed five-bucket rating distribution object of BrandAnalysisPage,
keys 1_stars through 5_stars. -/
structure RatingDist where
  stars1 : Nat
  stars2 : Nat
  stars3 : Nat
  stars4 : Nat
  stars5 : Nat
deriving Repr, DecidableEq

/-- The fixed three-key sentiment distribution object of BrandAnalysisPage. -/
structure SentimentDist where
  positive : Nat
  negative : Nat
  neutral : Nat
deriving Repr, DecidableEq

/-- The rating bucket update of BrandAnalysisPage loadBrandsData: the key
is the template rate_stars, and the count is bumped only when that key is
one of the five defined buckets, i.e. when rate prints as 1..5; any other
rate leaves every bucket alone. -/
def bumpRating (rd : RatingDist) (rate : ℚ) : RatingDist :=
  if rate = 1 then { rd with stars1 := rd.stars1 + 1 }
  else if rate = 2 then { rd with stars2 := rd.stars2 + 1 }
  else if rate = 3 then { rd with stars3 := rd.stars3 + 1 }
  else if rate = 4 then { rd with stars4 := rd.stars4 + 1 }
  else if rate = 5 then { rd with stars5 := rd.stars5 + 1 }
  else rd

/-- The sentiment bucket update of BrandAnalysisPage loadBrandsData: the
count is bumped only when sentiment_label is a defined key of the three-key
object; a null or unknown label touches nothing. -/
def bumpSentiment (sd : SentimentDist) (label : Option String) : SentimentDist :=
  if label = some "positive" then { sd with positive := sd.positive + 1 }
  else if label = some "negative" then { sd with negative := sd.negative + 1 }
  else if label = some "neutral" then { sd with neutral := sd.neutral + 1 }
  else sd

/-- Mutable per-brand accumulator of loadBrandsData in BrandAnalysisPage:
brandData.totalReviews, the two distributions, and the local totalRating
and reviewCount variables. -/
structure BrandAccum where
  totalReviews : Nat
  ratingDistribution : RatingDist
  sentimentDistribution : SentimentDist
  totalRating : ℚ
  reviewCount : Nat
deriving Repr, DecidableEq

/-- One iteration of the reviews.forEach body (BrandAnalysisPage lines
114-128). -/
def analysisReviewStep (acc : BrandAccum) (r : Review) : BrandAccum :=
  { acc with
    ratingDistribution := bumpRating acc.ratingDistribution r.rate
    sentimentDistribution := bumpSentiment acc.sentimentDistribution r.sentiment_label
    totalRating := acc.totalRating + r.rate
    reviewCount := acc.reviewCount + 1 }

/-- One iteration of the per-product loop (BrandAnalysisPage lines
106-132): add the fetched page length to totalReviews, then run the forEach
over its reviews. -/
def analysisProductStep (acc : BrandAccum) (reviews : List Review) : BrandAccum :=
  reviews.foldl analysisReviewStep
    { acc with totalReviews := acc.totalReviews + reviews.length }

/-- The zero-initialised accumulator of BrandAnalysisPage lines 88-104. -/
def initAccum : BrandAccum :=
  { totalReviews := 0
    ratingDistribution := { stars1 := 0, stars2 := 0, stars3 := 0, stars4 := 0, stars5 := 0 }
    sentimentDistribution := { positive := 0, negative := 0, neutral := 0 }
    totalRating := 0
    reviewCount := 0 }

/-- The BrandData record that loadBrandsData pushes per brand. -/
structure BrandData where
  brand : String
  totalReviews : Nat
  averageRating : ℚ
  ratingDistribution : RatingDist
  sentimentDistribution : SentimentDist
  averagePrice : ℚ
  totalProducts : Nat
deriving Repr, DecidableEq

/-- The per-brand body of loadBrandsData in BrandAnalysisPage (lines
87-140). Each product of the brand group comes paired with the review list
its getProductReviews call returned; the averageRating division is guarded
by reviewCount > 0. -/
def analysisBrandData (brand : String) (items : List (Product × List Review)) : BrandData :=
  let averagePrice : ℚ :=
    (items.foldl (fun sum it => sum + it.1.price) 0) / (items.length : ℚ)
  let acc := items.foldl (fun a it => analysisProductStep a it.2) initAccum
  { brand := brand
    totalReviews := acc.totalReviews
    averageRating := if acc.reviewCount > 0 then acc.totalRating / (acc.reviewCount : ℚ) else 0
    ratingDistribution := acc.ratingDistribution
    sentimentDistribution := acc.sentimentDistribution
    averagePrice := averagePrice
    totalProducts := items.length }

/-- A concrete product used to instantiate theorems. -/
def sampleProduct : Product :=
  { id := "MLA1"
    title := "Aire acondicionado split"
    price := 500000
    site_id := "MLA"
    currency_id := "ARS"
    sold_quantity := 10
    available_quantity := 5
    marca := "Samsung"
    modelo := "WindFree" }

lemma analysisProductStep_nil (acc : BrandAccum) :
    analysisProductStep acc [] = acc := by
  simp [analysisProductStep]

lemma analysisFold_all_nil (items : List (Product × List Review)) (acc : BrandAccum)
    (h : ∀ it ∈ items, it.2 = ([] : List Review)) :
    items.foldl (fun a it => analysisProductStep a it.2) acc = acc := by
  induction items generalizing acc with
  | nil => rfl
  | cons x xs ih =>
      have hx : x.2 = ([] : List Review) := h x (List.mem_cons_self x xs)
      simp only [List.foldl_cons, hx, analysisProductStep_nil]
      exact ih acc (fun it hit => h it (List.mem_cons_of_mem x hit))

/-- C3: a brand group all of whose products yield zero reviews gets
averageRating = 0 and all-zero rating and sentiment distributions, the
division being guarded by reviewCount > 0. -/
theorem analysisBrandData_no_reviews (brand : String)
    (items : List (Product × List Review))
    (h : ∀ it ∈ items, it.2 = ([] : List Review)) :
    (analysisBrandData brand items).averageRating = 0 ∧
    (analysisBrandData brand items).ratingDistribution
      = { stars1 := 0, stars2 := 0, stars3 := 0, stars4 := 0, stars5 := 0 } ∧
    (analysisBrandData brand items).sentimentDistribution
      = { positive := 0, negative := 0, neutral := 0 } := by
  unfold analysisBrandData
  rw [analysisFold_all_nil items initAccum h]
  refine ⟨?_, rfl, rfl⟩
  simp [initAccum]

/-- Witness for C3: a brand with two products and no reviews at all. -/
theorem analysisBrandData_no_reviews_witness :
    (analysisBrandData "Samsung" [(sampleProduct, []), (sampleProduct, [])]).averageRating = 0 ∧
    (analysisBrandData "Samsung" [(sampleProduct, []), (sampleProduct, [])]).ratingDistribution
      = { stars1 := 0, stars2 := 0, stars3 := 0, stars4 := 0, stars5 := 0 } ∧
    (analysisBrandData "Samsung" [(sampleProduct, []), (sampleProduct, [])]).sentimentDistribution
      = { positive := 0, negative := 0, neutral := 0 } :=
  analysisBrandData_no_reviews "Samsung" [(sampleProduct, []), (sampleProduct, [])]
    (by decide)

/-- Sum of the five rating buckets of BrandAnalysisPage. -/
def ratingBucketSum (rd : RatingDist) : Nat :=
  rd.stars1 + rd.stars2 + rd.stars3 + rd.stars4 + rd.stars5

/-- The rate hits one of the five defined buckets 1_stars .. 5_stars. -/
def rateInBuckets (r : Review) : Bool :=
  decide (r.rate = 1 ∨ r.rate = 2 ∨ r.rate = 3 ∨ r.rate = 4 ∨ r.rate = 5)

lemma ratingBucketSum_bump (rd : RatingDist) (q : ℚ) :
    ratingBucketSum (bumpRating rd q)
      = ratingBucketSum rd
          + (if q = 1 ∨ q = 2 ∨ q = 3 ∨ q = 4 ∨ q = 5 then 1 else 0) := by
  unfold bumpRating ratingBucketSum
  split_ifs with h1 h2 h3 h4 h5 <;> simp_all <;> omega

lemma bucketSum_foldl_reviews (l : List Review) (acc : BrandAccum) :
    ratingBucketSum ((l.foldl analysisReviewStep acc).ratingDistribution)
      = ratingBucketSum acc.ratingDistribution + l.countP rateInBuckets := by
  induction l generalizing acc with
  | nil => simp
  | cons x xs ih =>
      rw [List.foldl_cons, ih, List.countP_cons]
      show ratingBucketSum (bumpRating acc.ratingDistribution x.rate) + _ = _
      rw [ratingBucketSum_bump]
      by_cases h : x.rate = 1 ∨ x.rate = 2 ∨ x.rate = 3 ∨ x.rate = 4 ∨ x.rate = 5
      · simp [rateInBuckets, h]
        omega
      · simp [rateInBuckets, h]

lemma bucketSum_productStep (acc : BrandAccum) (revs : List Review) :
    ratingBucketSum ((analysisProductStep acc revs).ratingDistribution)
      = ratingBucketSum acc.ratingDistribution + revs.countP rateInBuckets := by
  unfold analysisProductStep
  rw [bucketSum_foldl_reviews]

lemma bucketSum_items (items : List (Product × List Review)) (acc : BrandAccum) :
    ratingBucketSum
        ((items.foldl (fun a it => analysisProductStep a it.2) acc).ratingDistribution)
      = ratingBucketSum acc.ratingDistribution
          + ((items.map (fun it => it.2)).flatten).countP rateInBuckets := by
  induction items generalizing acc with
  | nil => simp
  | cons x xs ih =>
      rw [List.foldl_cons, ih, bucketSum_productStep]
      simp [List.countP_append]
      omega

/-- C4: the five bucket counts of the BrandAnalysisPage rating distribution
sum to the number of processed reviews whose rate is one of 1..5 (so a
review whose rate lies outside 1-5 lands in no bucket), and when every
processed review has rate in 1..5 the buckets sum to the number of
processed reviews. -/
theorem analysisRatingDistribution_sum (brand : String)
    (items : List (Product × List Review)) :
    ratingBucketSum ((analysisBrandData brand items).ratingDistribution)
      = ((items.map (fun it => it.2)).flatten).countP rateInBuckets ∧
    ((∀ r ∈ (items.map (fun it => it.2)).flatten,
        r.rate = 1 ∨ r.rate = 2 ∨ r.rate = 3 ∨ r.rate = 4 ∨ r.rate = 5) →
      ratingBucketSum ((analysisBrandData brand items).ratingDistribution)
        = ((items.map (fun it => it.2)).flatten).length) := by
  have hsum : ratingBucketSum ((analysisBrandData brand items).ratingDistribution)
      = ((items.map (fun it => it.2)).flatten).countP rateInBuckets := by
    unfold analysisBrandData
    rw [bucketSum_items]
    simp [initAccum, ratingBucketSum]
  refine ⟨hsum, fun h => ?_⟩
  rw [hsum]
  apply List.countP_eq_length.mpr
  intro r hr
  simpa [rateInBuckets] using h r hr

/-- Witness for C4: one product whose two reviews have rates 4 and 1. -/
theorem analysisRatingDistribution_sum_witness :
    ratingBucketSum
        ((analysisBrandData "Samsung"
            [(sampleProduct, [sampleReview, sampleReviewNeg])]).ratingDistribution)
      = (([(sampleProduct, [sampleReview, sampleReviewNeg])].map
            (fun it => it.2)).flatten).length :=
  (analysisRatingDistribution_sum "Samsung"
      [(sampleProduct, [sampleReview, sampleReviewNeg])]).2 (by decide)

/-- The sentiment key used by BrandComparisonPage loadBrandsData:
review.sentiment_label with a fallback to neutral whenever the label is
falsy, i.e. null or the empty string. -/
def comparisonSentimentKey (label : Option String) : String :=
  match label with
  | none => "neutral"
  | some s => if s = "" then "neutral" else s

/-- One review of the BrandComparisonPage forEach (loadBrandsData lines
133-142): bump the dynamic sentimentDistribution object at the computed
key, a missing key reading as 0. -/
def comparisonSentimentStep (d : String → Nat) (r : Review) : String → Nat :=
  fun k => if k = comparisonSentimentKey r.sentiment_label then d k + 1 else d k

/-- The sentimentDistribution object built by BrandComparisonPage
loadBrandsData over all products of one brand, each product paired with its
fetched reviews, as a total function with the JS missing-key-reads-as-0
convention. -/
def comparisonBrandSentimentDist (items : List (Product × List Review)) : String → Nat :=
  items.foldl (fun d it => it.2.foldl comparisonSentimentStep d) (fun _ => 0)

lemma comparisonStep_foldl (l : List Review) (d : String → Nat) (k : String) :
    (l.foldl comparisonSentimentStep d) k
      = d k + l.countP (fun r => decide (comparisonSentimentKey r.sentiment_label = k)) := by
  induction l generalizing d with
  | nil => simp
  | cons x xs ih =>
      rw [List.foldl_cons, ih, List.countP_cons]
      by_cases h : comparisonSentimentKey x.sentiment_label = k
      · simp [comparisonSentimentStep, h]
        omega
      · simp [comparisonSentimentStep, h, Ne.symm h]

lemma comparisonItems_foldl (items : List (Product × List Review))
    (d : String → Nat) (k : String) :
    (items.foldl (fun d it => it.2.foldl comparisonSentimentStep d) d) k
      = d k + ((items.map (fun it => it.2)).flatten).countP
          (fun r => decide (comparisonSentimentKey r.sentiment_label = k)) := by
  induction items generalizing d with
  | nil => simp
  | cons x xs ih =>
      rw [List.foldl_cons, ih, comparisonStep_foldl]
      simp [List.countP_append]
      omega

lemma comparisonBrandSentimentDist_eval (items : List (Product × List Review)) (k : String) :
    comparisonBrandSentimentDist items k
      = ((items.map (fun it => it.2)).flatten).countP
          (fun r => decide (comparisonSentimentKey r.sentiment_label = k)) := by
  unfold comparisonBrandSentimentDist
  rw [comparisonItems_foldl]
  simp

lemma analysisStep_sd (l : List Review) (acc : BrandAccum) :
    (l.foldl analysisReviewStep acc).sentimentDistribution
      = l.foldl (fun sd r => bumpSentiment sd r.sentiment_label) acc.sentimentDistribution := by
  induction l generalizing acc with
  | nil => rfl
  | cons x xs ih =>
      rw [List.foldl_cons, List.foldl_cons, ih]
      rfl

lemma productStep_sd (acc : BrandAccum) (revs : List Review) :
    (analysisProductStep acc revs).sentimentDistribution
      = revs.foldl (fun sd r => bumpSentiment sd r.sentiment_label) acc.sentimentDistribution := by
  unfold analysisProductStep
  rw [analysisStep_sd]

lemma analysisItems_sd (items : List (Product × List Review)) (acc : BrandAccum) :
    (items.foldl (fun a it => analysisProductStep a it.2) acc).sentimentDistribution
      = ((items.map (fun it => it.2)).flatten).foldl
          (fun sd r => bumpSentiment sd r.sentiment_label) acc.sentimentDistribution := by
  induction items generalizing acc with
  | nil => simp
  | cons x xs ih =>
      rw [List.foldl_cons, ih, productStep_sd]
      simp [List.foldl_append]

lemma analysisBrandData_sd (brand : String) (items : List (Product × List Review)) :
    (analysisBrandData brand items).sentimentDistribution
      = ((items.map (fun it => it.2)).flatten).foldl
          (fun sd r => bumpSentiment sd r.sentiment_label)
          initAccum.sentimentDistribution := by
  show (items.foldl (fun a it => analysisProductStep a it.2) initAccum).sentimentDistribution = _
  exact analysisItems_sd items initAccum

lemma bumpSentiment_positive (sd : SentimentDist) (label : Option String) :
    (bumpSentiment sd label).positive
      = sd.positive + (if label = some "positive" then 1 else 0) := by
  by_cases h1 : label = some "positive"
  · simp [bumpSentiment, h1]
  · by_cases h2 : label = some "negative"
    · simp [bumpSentiment, h1, h2]
    · by_cases h3 : label = some "neutral" <;> simp [bumpSentiment, h1, h2, h3]

lemma bumpSentiment_negative (sd : SentimentDist) (label : Option String) :
    (bumpSentiment sd label).negative
      = sd.negative + (if label = some "negative" then 1 else 0) := by
  by_cases h1 : label = some "positive"
  · simp [bumpSentiment, h1]
  · by_cases h2 : label = some "negative"
    · simp [bumpSentiment, h1, h2]
    · by_cases h3 : label = some "neutral" <;> simp [bumpSentiment, h1, h2, h3]

lemma bumpSentiment_neutral (sd : SentimentDist) (label : Option String) :
    (bumpSentiment sd label).neutral
      = sd.neutral + (if label = some "neutral" then 1 else 0) := by
  by_cases h1 : label = some "positive"
  · simp [bumpSentiment, h1]
  · by_cases h2 : label = some "negative"
    · simp [bumpSentiment, h1, h2]
    · by_cases h3 : label = some "neutral" <;> simp [bumpSentiment, h1, h2, h3]

lemma sdFold_positive (l : List Review) (sd : SentimentDist) :
    (l.foldl (fun sd r => bumpSentiment sd r.sentiment_label) sd).positive
      = sd.positive + l.countP (fun r => decide (r.sentiment_label = some "positive")) := by
  induction l generalizing sd with
  | nil => simp
  | cons x xs ih =>
      rw [List.foldl_cons, ih, List.countP_cons, bumpSentiment_positive]
      by_cases h : x.sentiment_label = some "positive"
      · simp [h]
        omega
      · simp [h]

lemma sdFold_negative (l : List Review) (sd : SentimentDist) :
    (l.foldl (fun sd r => bumpSentiment sd r.sentiment_label) sd).negative
      = sd.negative + l.countP (fun r => decide (r.sentiment_label = some "negative")) := by
  induction l generalizing sd with
  | nil => simp
  | cons x xs ih =>
      rw [List.foldl_cons, ih, List.countP_cons, bumpSentiment_negative]
      by_cases h : x.sentiment_label = some "negative"
      · simp [h]
        omega
      · simp [h]

lemma sdFold_neutral (l : List Review) (sd : SentimentDist) :
    (l.foldl (fun sd r => bumpSentiment sd r.sentiment_label) sd).neutral
      = sd.neutral + l.countP (fun r => decide (r.sentiment_label = some "neutral")) := by
  induction l generalizing sd with
  | nil => simp
  | cons x xs ih =>
      rw [List.foldl_cons, ih, List.countP_cons, bumpSentiment_neutral]
      by_cases h : x.sentiment_label = some "neutral"
      · simp [h]
        omega
      · simp [h]

lemma countP_ext (p q : Review → Bool) (l : List Review) (h : ∀ r ∈ l, p r = q r) :
    l.countP p = l.countP q := by
  induction l with
  | nil => simp
  | cons x xs ih =>
      rw [List.countP_cons, List.countP_cons, h x (by simp),
        ih (fun r hr => h r (by simp [hr]))]

lemma comparisonKey_positive (label : Option String) :
    comparisonSentimentKey label = "positive" ↔ label = some "positive" := by
  rcases label with _ | s
  · simp [comparisonSentimentKey]
  · simp only [comparisonSentimentKey, Option.some_inj]
    by_cases hs : s = ""
    · subst hs
      simp
    · simp [hs]

lemma comparisonKey_negative (label : Option String) :
    comparisonSentimentKey label = "negative" ↔ label = some "negative" := by
  rcases label with _ | s
  · simp [comparisonSentimentKey]
  · simp only [comparisonSentimentKey, Option.some_inj]
    by_cases hs : s = ""
    · subst hs
      simp
    · simp [hs]

lemma comparisonKey_neutral (label : Option String) :
    comparisonSentimentKey label = "neutral"
      ↔ (label = none ∨ label = some "" ∨ label = some "neutral") := by
  rcases label with _ | s
  · simp [comparisonSentimentKey]
  · simp only [comparisonSentimentKey, Option.some_inj]
    by_cases hs : s = ""
    · subst hs
      simp
    · simp [hs]

/-- C9 counterexample: on a single review whose sentiment_label is null,
BrandAnalysisPage counts it in no sentiment bucket (neutral stays 0) while
BrandComparisonPage counts it as neutral (neutral becomes 1), so the two
per-brand sentiment distributions differ. -/
theorem analysis_comparison_neutral_counterexample :
    (analysisBrandData "Samsung"
        [(sampleProduct, [sampleReviewNull])]).sentimentDistribution.neutral = 0 ∧
    comparisonBrandSentimentDist [(sampleProduct, [sampleReviewNull])] "neutral" = 1 ∧
    ¬ ((analysisBrandData "Samsung"
          [(sampleProduct, [sampleReviewNull])]).sentimentDistribution.neutral
        = comparisonBrandSentimentDist [(sampleProduct, [sampleReviewNull])] "neutral") := by
  refine ⟨?_, ?_, ?_⟩ <;> decide

/-- C9 amended: the positive and negative counts of the two pages always
agree; the neutral counts agree provided no processed review has a falsy
(null or empty) sentiment_label. -/
theorem analysis_comparison_sentiment_agree (brand : String)
    (items : List (Product × List Review)) :
    (analysisBrandData brand items).sentimentDistribution.positive
        = comparisonBrandSentimentDist items "positive" ∧
    (analysisBrandData brand items).sentimentDistribution.negative
        = comparisonBrandSentimentDist items "negative" ∧
    ((∀ r ∈ (items.map (fun it => it.2)).flatten,
        r.sentiment_label ≠ none ∧ r.sentiment_label ≠ some "") →
      (analysisBrandData brand items).sentimentDistribution.neutral
          = comparisonBrandSentimentDist items "neutral") := by
  refine ⟨?_, ?_, fun htruthy => ?_⟩
  · rw [analysisBrandData_sd, sdFold_positive, comparisonBrandSentimentDist_eval]
    simp only [initAccum, Nat.zero_add]
    apply countP_ext
    intro r _
    rw [decide_eq_decide]
    exact (comparisonKey_positive r.sentiment_label).symm
  · rw [analysisBrandData_sd, sdFold_negative, comparisonBrandSentimentDist_eval]
    simp only [initAccum, Nat.zero_add]
    apply countP_ext
    intro r _
    rw [decide_eq_decide]
    exact (comparisonKey_negative r.sentiment_label).symm
  · rw [analysisBrandData_sd, sdFold_neutral, comparisonBrandSentimentDist_eval]
    simp only [initAccum, Nat.zero_add]
    apply countP_ext
    intro r hr
    rw [decide_eq_decide, comparisonKey_neutral]
    obtain ⟨h1, h2⟩ := htruthy r hr
    constructor
    · intro h
      exact Or.inr (Or.inr h)
    · rintro (h | h | h)
      · exact absurd h h1
      · exact absurd h h2
      · exact h

/-- Witness for the amended C9 at a brand whose reviews all carry enum
labels. -/
theorem analysis_comparison_sentiment_agree_witness :
    (analysisBrandData "Samsung"
        [(sampleProduct, [sampleReview, sampleReviewNeg])]).sentimentDistribution.positive
      = comparisonBrandSentimentDist [(sampleProduct, [sampleReview, sampleReviewNeg])] "positive" ∧
    (analysisBrandData "Samsung"
        [(sampleProduct, [sampleReview, sampleReviewNeg])]).sentimentDistribution.neutral
      = comparisonBrandSentimentDist [(sampleProduct, [sampleReview, sampleReviewNeg])] "neutral" := by
  have h := analysis_comparison_sentiment_agree "Samsung"
    [(sampleProduct, [sampleReview, sampleReviewNeg])]
  exact ⟨h.1, h.2.2 (by decide)⟩

/-- C10: the neutral bucket of the BrandComparisonPage sentiment
distribution counts exactly the reviews whose sentiment_label is null, the
empty string, or the neutral enum value: unenriched reviews appear as
neutral in the brand totals rather than being excluded. -/
theorem comparison_null_label_neutral (items : List (Product × List Review)) :
    comparisonBrandSentimentDist items "neutral"
      = ((items.map (fun it => it.2)).flatten).countP
          (fun r => decide (r.sentiment_label = none ∨ r.sentiment_label = some ""
              ∨ r.sentiment_label = some "neutral")) := by
  rw [comparisonBrandSentimentDist_eval]
  apply countP_ext
  intro r _
  rw [decide_eq_decide]
  exact comparisonKey_neutral r.sentiment_label

/-- Modelled from the spec: API client configuration (spec sections 4.2 and
6); the Python client src/api/ml_client.py is not part of the checked tree.
An optional bearer credential and the flag that disables online mode. -/
structure ClientConfig where
  accessToken : Option String
  offlineMode : Bool
deriving Repr, DecidableEq

/-- The two backends of the External API Client. -/
inductive Backend where
  | online
  | noindex
deriving Repr, DecidableEq

/-- Modelled from the spec: mode selection (spec 4.2): if a credential is
present AND online mode is not disabled, use online; otherwise use
noindex. -/
def selectBackend (c : ClientConfig) : Backend :=
  if c.accessToken.isSome && !c.offlineMode then Backend.online else Backend.noindex

/-- C7: with no credential the client selects the noindex backend whatever
the other settings are; with a credential and online mode not disabled it
selects the online backend. -/
theorem selectBackend_spec (c : ClientConfig) :
    (c.accessToken = none → selectBackend c = Backend.noindex) ∧
    (∀ tok, c.accessToken = some tok → c.offlineMode = false →
      selectBackend c = Backend.online) := by
  constructor
  · intro h
    simp [selectBackend, h]
  · intro tok h hoff
    simp [selectBackend, h, hoff]

/-- Witness for C7: a tokenless config in offline mode goes to noindex, a
config with a token and online mode enabled goes online. -/
theorem selectBackend_spec_witness :
    selectBackend { accessToken := none, offlineMode := true } = Backend.noindex ∧
    selectBackend { accessToken := some "tok", offlineMode := false } = Backend.online :=
  ⟨(selectBackend_spec { accessToken := none, offlineMode := true }).1 rfl,
   (selectBackend_spec { accessToken := some "tok", offlineMode := false }).2 "tok" rfl rfl⟩

/-- Modelled from the spec: a Product row of the relational store (spec 3
and 4.4); the Python persistence code (src/models, src/services) is not
part of the checked tree. The id is the unique natural key; the other
fields are the mutable ones a re-fetch may overwrite, so the raw record and
the stored row share this shape. -/
structure StoredProduct where
  id : String
  title : String
  price : ℚ
  sold_quantity : Int
  available_quantity : Int
  marca : String
  modelo : String
deriving Repr, DecidableEq

/-- Modelled from the spec: update the mutable fields of an existing row in
place from the incoming record, preserving identity (spec 4.4). -/
def applyProduct (r : StoredProduct) (p : StoredProduct) : StoredProduct :=
  { p with
    title := r.title
    price := r.price
    sold_quantity := r.sold_quantity
    available_quantity := r.available_quantity
    marca := r.marca
    modelo := r.modelo }

/-- Modelled from the spec: upsertProduct (spec 4.4) — look the row up by
the unique id; if found update its mutable fields in place, otherwise
insert the record. -/
def upsertProduct (r : StoredProduct) (store : List StoredProduct) : List StoredProduct :=
  if store.any (fun p => decide (p.id = r.id)) then
    store.map (fun p => if p.id = r.id then applyProduct r p else p)
  else store ++ [r]

/-- Modelled from the spec: a raw review record as fetched from one page of
the external API (spec 3, 4.4). -/
structure RawReview where
  api_review_id : String
  rate : ℚ
  title : String
  content : String
  date_created : String
  likes : Int
  dislikes : Int
deriving Repr, DecidableEq

/-- Modelled from the spec: a Review row of the relational store, keyed by
the unique pair (product_id, api_review_id); the sentiment fields belong to
the enrichment pass, so the ingestion upsert leaves them alone. -/
structure StoredReview where
  product_id : String
  api_review_id : String
  rate : ℚ
  title : String
  content : String
  date_created : String
  likes : Int
  dislikes : Int
  sentiment_score : Option ℚ
  sentiment_label : Option String
deriving Repr, DecidableEq

/-- Modelled from the spec: update the mutable fields of an existing review
row from the incoming record, preserving identity and enrichment fields. -/
def applyReview (r : RawReview) (row : StoredReview) : StoredReview :=
  { row with
    rate := r.rate
    title := r.title
    content := r.content
    date_created := r.date_created
    likes := r.likes
    dislikes := r.dislikes }

/-- Modelled from the spec: the row inserted for a record never seen
before; sentiment fields stay null until enrichment. -/
def insertReview (r : RawReview) (productId : String) : StoredReview :=
  { product_id := productId
    api_review_id := r.api_review_id
    rate := r.rate
    title := r.title
    content := r.content
    date_created := r.date_created
    likes := r.likes
    dislikes := r.dislikes
    sentiment_score := none
    sentiment_label := none }

/-- Modelled from the spec: upsertReview(record, productId) (spec 4.4) —
look the row up by (product_id, api_review_id); update mutable fields if
found, insert otherwise; also report whether the row was newly created. -/
def upsertReview (r : RawReview) (productId : String) (store : List StoredReview) :
    List StoredReview × Bool :=
  if store.any (fun row => decide (row.product_id = productId ∧ row.api_review_id = r.api_review_id)) then
    (store.map (fun row =>
        if row.product_id = productId ∧ row.api_review_id = r.api_review_id
        then applyReview r row else row),
     false)
  else (store ++ [insertReview r productId], true)

lemma applyProduct_id (r p : StoredProduct) : (applyProduct r p).id = p.id := rfl

lemma applyProduct_idem (r p : StoredProduct) :
    applyProduct r (applyProduct r p) = applyProduct r p := rfl

lemma upsertProduct_idem (r : StoredProduct) (store : List StoredProduct) :
    upsertProduct r (upsertProduct r store) = upsertProduct r store := by
  by_cases h : store.any (fun p => decide (p.id = r.id))
  · have hs1 : upsertProduct r store
        = store.map (fun p => if p.id = r.id then applyProduct r p else p) := by
      rw [upsertProduct, if_pos h]
    have hany : (store.map (fun p => if p.id = r.id then applyProduct r p else p)).any
        (fun p => decide (p.id = r.id)) = true := by
      obtain ⟨p, hp, hpr⟩ := List.any_eq_true.mp h
      refine List.any_eq_true.mpr ⟨if p.id = r.id then applyProduct r p else p,
        List.mem_map_of_mem _ hp, ?_⟩
      simp only [of_decide_eq_true hpr, if_pos]
      exact decide_eq_true (applyProduct_id r p ▸ of_decide_eq_true hpr)
    rw [hs1, upsertProduct, if_pos hany, List.map_map]
    apply List.map_congr_left
    intro p _
    by_cases hp : p.id = r.id
    · simp [Function.comp, hp, applyProduct_id, applyProduct_idem]
    · simp [Function.comp, hp]
  · have hs1 : upsertProduct r store = store ++ [r] := by
      rw [upsertProduct, if_neg h]
    have hall : ∀ p ∈ store, ¬ (p.id = r.id) := by
      intro p hp hpr
      exact absurd (List.any_eq_true.mpr ⟨p, hp, decide_eq_true hpr⟩) h
    have hany : (store ++ [r]).any (fun p => decide (p.id = r.id)) = true :=
      List.any_eq_true.mpr ⟨r, by simp, by simp⟩
    rw [hs1, upsertProduct, if_pos hany, List.map_append]
    have hstore : store.map (fun p => if p.id = r.id then applyProduct r p else p) = store := by
      conv_rhs => rw [← List.map_id store]
      apply List.map_congr_left
      intro p hp
      simp [hall p hp]
    rw [hstore]
    simp only [List.map_cons, List.map_nil, if_pos]
    rfl

lemma applyReview_key (r : RawReview) (row : StoredReview) :
    (applyReview r row).product_id = row.product_id ∧
    (applyReview r row).api_review_id = row.api_review_id := ⟨rfl, rfl⟩

lemma upsertReview_idem (r : RawReview) (productId : String) (store : List StoredReview) :
    (upsertReview r productId (upsertReview r productId store).1).1
        = (upsertReview r productId store).1 ∧
    (upsertReview r productId (upsertReview r productId store).1).2 = false := by
  by_cases h : store.any
      (fun row => decide (row.product_id = productId ∧ row.api_review_id = r.api_review_id))
  · have hs1 : (upsertReview r productId store).1
        = store.map (fun row =>
            if row.product_id = productId ∧ row.api_review_id = r.api_review_id
            then applyReview r row else row) := by
      rw [upsertReview, if_pos h]
    have hany : ((store.map (fun row =>
        if row.product_id = productId ∧ row.api_review_id = r.api_review_id
        then applyReview r row else row)).any
          (fun row => decide (row.product_id = productId ∧ row.api_review_id = r.api_review_id)))
        = true := by
      obtain ⟨row, hrow, hkey⟩ := List.any_eq_true.mp h
      have hk := of_decide_eq_true hkey
      refine List.any_eq_true.mpr
        ⟨if row.product_id = productId ∧ row.api_review_id = r.api_review_id
          then applyReview r row else row, List.mem_map_of_mem _ hrow, ?_⟩
      rw [if_pos hk]
      exact decide_eq_true ⟨(applyReview_key r row).1.trans hk.1,
        (applyReview_key r row).2.trans hk.2⟩
    rw [hs1]
    simp only [upsertReview, if_pos hany]
    refine ⟨?_, trivial⟩
    rw [List.map_map]
    apply List.map_congr_left
    intro row _
    by_cases hk : row.product_id = productId ∧ row.api_review_id = r.api_review_id
    · have hk2 : (applyReview r row).product_id = productId
          ∧ (applyReview r row).api_review_id = r.api_review_id :=
        ⟨(applyReview_key r row).1.trans hk.1, (applyReview_key r row).2.trans hk.2⟩
      simp only [Function.comp, hk, hk2, if_pos, and_self]
      rfl
    · simp [Function.comp, hk]
  · have hs1 : (upsertReview r productId store).1 = store ++ [insertReview r productId] := by
      rw [upsertReview, if_neg h]
    have hall : ∀ row ∈ store,
        ¬ (row.product_id = productId ∧ row.api_review_id = r.api_review_id) := by
      intro row hrow hk
      exact absurd (List.any_eq_true.mpr ⟨row, hrow, decide_eq_true hk⟩) h
    have hany : ((store ++ [insertReview r productId]).any
        (fun row => decide (row.product_id = productId ∧ row.api_review_id = r.api_review_id)))
        = true :=
      List.any_eq_true.mpr ⟨insertReview r productId, by simp, by simp [insertReview]⟩
    rw [hs1]
    simp only [upsertReview, if_pos hany]
    refine ⟨?_, trivial⟩
    rw [List.map_append]
    have hstore : store.map (fun row =>
        if row.product_id = productId ∧ row.api_review_id = r.api_review_id
        then applyReview r row else row) = store := by
      conv_rhs => rw [← List.map_id store]
      apply List.map_congr_left
      intro row hrow
      simp [hall row hrow]
    rw [hstore]
    simp [insertReview, applyReview]

/-- C5: upsert is idempotent under repetition with identical input, for
every record and every starting store: the second upsertProduct call leaves
the product store exactly as the first left it, and the second upsertReview
call leaves the review store exactly as the first left it and reports
wasNew = false, so no duplicate row appears and no field changes value. -/
theorem upsert_idempotent (r : StoredProduct) (store : List StoredProduct)
    (rr : RawReview) (productId : String) (rstore : List StoredReview) :
    upsertProduct r (upsertProduct r store) = upsertProduct r store ∧
    (upsertReview rr productId (upsertReview rr productId rstore).1).1
        = (upsertReview rr productId rstore).1 ∧
    (upsertReview rr productId (upsertReview rr productId rstore).1).2 = false ∧
    (upsertProduct r (upsertProduct r store)).length = (upsertProduct r store).length := by
  obtain ⟨h1, h2⟩ := upsertReview_idem rr productId rstore
  exact ⟨upsertProduct_idem r store, h1, h2,
    congrArg List.length (upsertProduct_idem r store)⟩

/-- Modelled from the spec: the Pagination Driver loop (spec 4.3) for a
product whose backend holds exactly total reviews and whose target count is
that known total; the Python driver src/services is not part of the checked
tree. Pages arrive in offset order with no errors and no duplicates, so
each request of size min(pageSize, total - collected) returns that many new
records, all of which the persistence layer applies. The loop stops as soon
as collected reaches the target; the positivity of the page size is carried
as a hypothesis because with a zero page size the loop would not advance.
Returns (page requests issued, collected). -/
def driverLoop (total pageSize : Nat) (hP : 0 < pageSize) (collected requests : Nat) :
    Nat × Nat :=
  if h : collected < total then
    driverLoop total pageSize hP (collected + min pageSize (total - collected)) (requests + 1)
  else (requests, collected)
termination_by total - collected
decreasing_by
  have h1 : 0 < min pageSize (total - collected) := lt_min hP (Nat.sub_pos_of_lt h)
  omega

/-- Modelled from the spec: drive one product from offset 0 with nothing
collected yet (spec 4.3 step 2). -/
def driveProduct (total pageSize : Nat) (hP : 0 < pageSize) : Nat × Nat :=
  driverLoop total pageSize hP 0 0

lemma driverLoop_spec (total pageSize : Nat) (hP : 0 < pageSize) :
    ∀ n collected requests, total - collected ≤ n → collected ≤ total →
      driverLoop total pageSize hP collected requests
        = (requests + (total - collected + pageSize - 1) / pageSize, total) := by
  intro n
  induction n with
  | zero =>
      intro collected requests hn hc
      have hce : collected = total := le_antisymm hc (by omega)
      subst hce
      rw [driverLoop, dif_neg (lt_irrefl collected)]
      have : (collected - collected + pageSize - 1) / pageSize = 0 :=
        Nat.div_eq_of_lt (by omega)
      rw [this]
      simp
  | succ n ih =>
      intro collected requests hn hc
      by_cases h : collected < total
      · rw [driverLoop, dif_pos h]
        have hmin : 0 < min pageSize (total - collected) :=
          lt_min hP (Nat.sub_pos_of_lt h)
        have hc2 : collected + min pageSize (total - collected) ≤ total := by
          have : min pageSize (total - collected) ≤ total - collected := min_le_right _ _
          omega
        have hn2 : total - (collected + min pageSize (total - collected)) ≤ n := by
          omega
        rw [ih (collected + min pageSize (total - collected)) (requests + 1) hn2 hc2]
        have harith :
            requests + 1 + (total - (collected + min pageSize (total - collected)) + pageSize - 1) / pageSize
              = requests + (total - collected + pageSize - 1) / pageSize := by
          by_cases hr : total - collected ≤ pageSize
          · have hmin2 : min pageSize (total - collected) = total - collected :=
              min_eq_right hr
            rw [hmin2]
            have h0 : total - (collected + (total - collected)) = 0 := by omega
            rw [h0]
            have hz : (0 + pageSize - 1) / pageSize = 0 := Nat.div_eq_of_lt (by omega)
            rw [hz]
            have he : total - collected + pageSize - 1 = (total - collected - 1) + pageSize := by
              omega
            rw [he, Nat.add_div_right _ hP, Nat.div_eq_of_lt (by omega)]
          · have hmin2 : min pageSize (total - collected) = pageSize :=
              min_eq_left (by omega)
            rw [hmin2]
            have he1 : total - (collected + pageSize) + pageSize - 1
                = total - collected - 1 := by omega
            have he2 : total - collected + pageSize - 1
                = (total - collected - 1) + pageSize := by omega
            rw [he1, he2, Nat.add_div_right _ hP]
            omega
        rw [harith]
      · have hce : collected = total := le_antisymm hc (by omega)
        subst hce
        rw [driverLoop, dif_neg (lt_irrefl collected)]
        have : (collected - collected + pageSize - 1) / pageSize = 0 :=
          Nat.div_eq_of_lt (by omega)
        rw [this]
        simp

/-- C6: for a product with a known total of T reviews and a positive page
size P, the driver issues exactly ceil(T/P) = (T + P - 1) / P page requests
and terminates with collected = T; in particular a product with zero
reviews terminates immediately with zero requests and collected = 0. -/
theorem driver_pagination (T P : Nat) (hP : 0 < P) :
    driveProduct T P hP = ((T + P - 1) / P, T) ∧
    driveProduct 0 P hP = (0, 0) := by
  constructor
  · have h := driverLoop_spec T P hP (T - 0) 0 0 (le_refl _) (Nat.zero_le _)
    rw [driveProduct, h]
    simp
  · have h := driverLoop_spec 0 P hP 0 0 0 (le_refl _) (le_refl _)
    rw [driveProduct, h]
    have : (0 - 0 + P - 1) / P = 0 := Nat.div_eq_of_lt (by omega)
    rw [this]

/-- Witness for C6 at the example of the spec: T = 120 reviews and page
size 50 give 3 page requests and 120 collected, and T = 0 gives none. -/
theorem driver_pagination_witness :
    driveProduct 120 50 (by decide) = (3, 120) ∧
    driveProduct 0 50 (by decide) = (0, 0) := by
  have h := driver_pagination 120 50 (by decide)
  have h0 := driver_pagination 0 50 (by decide)
  exact ⟨h.1, h0.2⟩

end BrandsReviews
